import Mathlib

/-!
Shallow embedding of `src/login.py` (batch login automation for the
betadash.lunes.host control panel).

Browser interaction is modelled by explicit environment structures: each
guarded browser call (one wrapped in `try/except` in the source, or one whose
result feeds a branch) is a field of the environment, so every reachable branch
of the Python control flow is a branch of the Lean definition.  Unguarded
browser calls that raise propagate to the orchestrator's per-account
`try/except`; that path is modelled by the result oracle's `.error` case.

Python string primitives (`str.strip`, `str.splitlines`, `str.split`,
`str.lower`, `in`) are embedded as executable Lean functions below.
-/

namespace Login

/-- Python `str.isspace` characters relevant to `str.strip()` (ASCII range
plus the common extras Python treats as whitespace). -/
def pyIsSpace (c : Char) : Bool :=
  c = ' ' || c = '\t' || c = '\n' || c = '\r' || c = (Char.ofNat 0x0b) ||
  c = (Char.ofNat 0x0c) || c = (Char.ofNat 0x1c) || c = (Char.ofNat 0x1d) ||
  c = (Char.ofNat 0x1e) || c = (Char.ofNat 0x1f) || c = (Char.ofNat 0x85)

/-- Python `str.strip()` on a list of characters. -/
def pyStripList (l : List Char) : List Char :=
  ((l.dropWhile pyIsSpace).reverse.dropWhile pyIsSpace).reverse

/-- Python `str.strip()`. -/
def pyStrip (s : String) : String :=
  String.mk (pyStripList s.data)

/-- Characters Python `str.splitlines` treats as line boundaries. -/
def isLineBoundary (c : Char) : Bool :=
  c = '\n' || c = '\r' || c = (Char.ofNat 0x0b) || c = (Char.ofNat 0x0c) ||
  c = (Char.ofNat 0x1c) || c = (Char.ofNat 0x1d) || c = (Char.ofNat 0x1e) ||
  c = (Char.ofNat 0x85) || c = (Char.ofNat 0x2028) || c = (Char.ofNat 0x2029)

/-- Worker for `pySplitlines`: `acc` holds the current line, reversed. -/
def splitlinesAux : List Char → List Char → List String
  | [], acc => if acc.isEmpty then [] else [String.mk acc.reverse]
  | '\r' :: '\n' :: rest, acc => String.mk acc.reverse :: splitlinesAux rest []
  | c :: rest, acc =>
    if isLineBoundary c then
      String.mk acc.reverse :: splitlinesAux rest []
    else
      splitlinesAux rest (c :: acc)

/-- Python `str.splitlines()`. -/
def pySplitlines (s : String) : List String :=
  splitlinesAux s.data []

/-- `needle` occurs as a contiguous sublist of the haystack
(Python's `needle in hay` on strings). -/
def isSubListOf (needle : List Char) : List Char → Bool
  | [] => needle.isEmpty
  | c :: rest => needle.isPrefixOf (c :: rest) || isSubListOf needle rest

/-- Python `sub in s` for strings. -/
def strContains (s sub : String) : Bool :=
  isSubListOf sub.data s.data

/-- Python `s.lower()` (ASCII case folding, as used on the ASCII markers the
source compares against). -/
def strLower (s : String) : String :=
  String.mk (s.data.map Char.toLower)

/-- Python `line.startswith("#")`. -/
def startsWithHash (s : String) : Bool :=
  match s.data with
  | [] => false
  | c :: _ => c = '#'

/-- Worker for `pySplit`: `acc` holds the current field, reversed. -/
def pySplitAux (sep : Char) : List Char → List Char → List String
  | [], acc => [String.mk acc.reverse]
  | c :: rest, acc =>
    if c = sep then String.mk acc.reverse :: pySplitAux sep rest []
    else pySplitAux sep rest (c :: acc)

/-- Python `s.split(sep)` for a one-character separator (`"".split(",")`
is `[""]`, and empty fields are kept). -/
def pySplit (sep : Char) (s : String) : List String :=
  pySplitAux sep s.data []

/-- Split at the first occurrence of `c` (Python `s.split(c, 1)` when `c`
occurs; callers only use it under that guard). -/
def splitAtFirst (c : Char) : List Char → List Char × List Char
  | [] => ([], [])
  | x :: rest =>
    if x = c then ([], rest)
    else
      let p := splitAtFirst c rest
      (x :: p.1, p.2)

/-- The `name_mask` computation of `mask_email_keep_domain`
(`src/login.py` lines 59–64). -/
def nameMask (name : List Char) : List Char :=
  if name.length ≤ 1 then (if name.isEmpty then ['*'] else name)
  else if name.length = 2 then name.take 1 ++ name.drop 1
  else name.take 1 ++ List.replicate (name.length - 2) '*' ++ name.drop (name.length - 1)

/-- `mask_email_keep_domain` from `src/login.py` lines 54–65. -/
def mask_email_keep_domain (email : String) : String :=
  let e := pyStrip email
  if ¬ e.data.contains '@' then "***"
  else
    let p := splitAtFirst '@' e.data
    String.mk (nameMask p.1 ++ '@' :: p.2)

/-- Longest digit prefix (the `\d+` group once the literal part matched). -/
def digitsPrefix : List Char → List Char
  | [] => []
  | c :: rest => if c.isDigit then c :: digitsPrefix rest else []

/-- `matchPrefix pat l` returns the remainder of `l` after the literal prefix
`pat`, when `l` starts with `pat`. -/
def matchPrefix : List Char → List Char → Option (List Char)
  | [], l => some l
  | _ :: _, [] => none
  | p :: ps, c :: cs => if p = c then matchPrefix ps cs else none

/-- Leftmost match of the regex `/servers/(\d+)` (`re.search` semantics: the
earliest start position where the literal is followed by at least one digit
wins, and the group is the maximal digit run there). -/
def searchServersId : List Char → Option (List Char)
  | [] => none
  | c :: rest =>
    match matchPrefix "/servers/".data (c :: rest) with
    | some tail =>
      let ds := digitsPrefix tail
      if ds.isEmpty then searchServersId rest else some ds
    | none => searchServersId rest

/-- `_extract_server_id_from_href` from `src/login.py` lines 191–198. -/
def extract_server_id_from_href (href : String) : Option String :=
  if href = "" then none
  else (searchServersId href.data).map String.mk

/-- Observable page state at one polling attempt: results of the guarded
browser calls made by `_is_logged_in`.  A `...Raises` flag set means the
corresponding `try` block raised (the source swallows it with `except: pass`). -/
structure PageState where
  heroRaises : Bool
  heroVisible : Bool
  heroText : String
  logoutRaises : Bool
  logoutVisible : Bool
deriving Repr, DecidableEq

/-- `_is_logged_in` from `src/login.py` lines 167–188: returns
`(logged_in, welcome_text)`. -/
def is_logged_in (p : PageState) : Bool × Option String :=
  if !p.heroRaises && p.heroVisible then
    let wt := pyStrip p.heroText
    if strContains (strLower wt) "welcome back" then (true, some wt)
    else if !p.logoutRaises && p.logoutVisible then (true, some wt)
    else (false, some wt)
  else
    if !p.logoutRaises && p.logoutVisible then (true, none)
    else (false, none)

/-- The detection loop of `login_then_flow_one_account`
(`src/login.py` lines 360–366): starting at attempt `k` with `fuel` attempts
left, carrying the last captured welcome text. -/
def detectFrom (pages : Nat → PageState) : Nat → Nat → Option String → Bool × Option String
  | _, 0, wt => (false, wt)
  | k, fuel + 1, _ =>
    let r := is_logged_in (pages k)
    if r.1 then (true, r.2) else detectFrom pages (k + 1) fuel r.2

/-- The full `for _ in range(10)` detection loop. -/
def detect_login (pages : Nat → PageState) : Bool × Option String :=
  detectFrom pages 0 10 none

/-- The welcome-text signal of `_is_logged_in`. -/
def welcomeFires (p : PageState) : Bool :=
  !p.heroRaises && p.heroVisible && strContains (strLower (pyStrip p.heroText)) "welcome back"

/-- The logout-control-visibility signal of `_is_logged_in`. -/
def logoutFires (p : PageState) : Bool :=
  !p.logoutRaises && p.logoutVisible

/-- Tags of the screenshots taken on the failure branches of the post-login
flow (the timestamped filename prefixes in the source). -/
inductive ScreenTag where
  | serverCardNotFound
  | serverIdExtractFailed
  | gotoServerFailed
  | backHomeFailed
  | logoutClickFailed
  | logoutVerifyFailed
deriving Repr, DecidableEq

/-- Environment for `_find_server_id_and_go_server_page` and
`_post_login_visit_then_logout`: one field per guarded browser interaction.
`cardVisible`: the `wait_for_element_visible(SERVER_CARD_LINK_SEL)` succeeded;
`hrefRaises`: `get_attribute` raised (source substitutes `""`);
`clickOk`: the scroll/click/wait-for-"Now managing" block succeeded;
`openOk`: the fallback `open(server_url)`/wait block succeeded;
`backHomeOk`: the open-home/wait-body block succeeded;
`logoutClickOk`: the wait/scroll/click-logout block succeeded;
`urlRaises`: `get_current_url` raised (source substitutes `""`);
`visRaises`: the email/password visibility checks raised. -/
structure PostEnv where
  cardVisible : Bool
  hrefRaises : Bool
  href : String
  clickOk : Bool
  openOk : Bool
  backHomeOk : Bool
  logoutClickOk : Bool
  urlRaises : Bool
  urlNow : String
  visRaises : Bool
  emailVisible : Bool
  passVisible : Bool
deriving Repr, DecidableEq

/-- `_find_server_id_and_go_server_page` from `src/login.py` lines 201–247:
returns `(server_id, entered_ok)` plus the screenshots taken. -/
def find_server_id_and_go_server_page (env : PostEnv) :
    Option String × Bool × List ScreenTag :=
  if !env.cardVisible then (none, false, [ScreenTag.serverCardNotFound])
  else
    let href := if env.hrefRaises then "" else env.href
    match extract_server_id_from_href href with
    | none => (none, false, [ScreenTag.serverIdExtractFailed])
    | some sid =>
      if env.clickOk then (some sid, true, [])
      else if env.openOk then (some sid, true, [])
      else (some sid, false, [ScreenTag.gotoServerFailed])

/-- `_post_login_visit_then_logout` from `src/login.py` lines 250–311:
returns `(server_id, logout_ok)` plus the screenshots taken. -/
def post_login_visit_then_logout (env : PostEnv) :
    Option String × Bool × List ScreenTag :=
  let r := find_server_id_and_go_server_page env
  let sid := r.1
  if !r.2.1 then (sid, false, r.2.2)
  else if !env.backHomeOk then (sid, false, r.2.2 ++ [ScreenTag.backHomeFailed])
  else if !env.logoutClickOk then (sid, false, r.2.2 ++ [ScreenTag.logoutClickFailed])
  else
    let url_now := strLower (if env.urlRaises then "" else env.urlNow)
    if strContains url_now "/login" then (sid, true, r.2.2)
    else if !env.visRaises && env.emailVisible && env.passVisible then (sid, true, r.2.2)
    else (sid, false, r.2.2 ++ [ScreenTag.logoutVerifyFailed])

/-- Result record of `login_then_flow_one_account` (the 6-tuple
`(status, welcome_text, has_cf_clearance, current_url, server_id, logout_ok)`). -/
structure Outcome where
  status : String
  welcome : Option String
  hasCf : Bool
  url : String
  serverId : Option String
  logoutOk : Bool
deriving Repr, DecidableEq

/-- Environment for one account's session (`login_then_flow_one_account`,
`src/login.py` lines 314–380).
`formVisible`: the three form-control waits succeeded;
`urlAtFormFail`/`hasCfAtFormFail`: values read on the early-failure branch;
`hasCf`/`currentUrl`: values read after submitting;
`pages k`: the page state seen by the k-th detection attempt;
`post`: environment of the post-login flow;
`finalUrlRaises`/`finalUrl`: the final `get_current_url` re-read. -/
structure SessionEnv where
  formVisible : Bool
  urlAtFormFail : String
  hasCfAtFormFail : Bool
  hasCf : Bool
  currentUrl : String
  pages : Nat → PageState
  post : PostEnv
  finalUrlRaises : Bool
  finalUrl : String

/-- `login_then_flow_one_account` from `src/login.py` lines 314–380. -/
def login_then_flow_one_account (env : SessionEnv) : Outcome :=
  if !env.formVisible then
    ⟨"FAIL", none, env.hasCfAtFormFail, env.urlAtFormFail, none, false⟩
  else
    let has_cf := env.hasCf
    let current_url := pyStrip env.currentUrl
    let d := detect_login env.pages
    if !d.1 then ⟨"FAIL", d.2, has_cf, current_url, none, false⟩
    else
      let r := post_login_visit_then_logout env.post
      let current_url2 := if env.finalUrlRaises then current_url else pyStrip env.finalUrl
      ⟨"OK", d.2, has_cf, current_url2, r.1, r.2.1⟩

/-- One parsed account line (`src/login.py` lines 128–135). -/
structure Account where
  email : String
  password : String
  tg_token : String
  tg_chat : String
deriving Repr, DecidableEq

/-- The `RuntimeError`s `build_accounts_from_env` can raise. -/
inductive ConfigError where
  | missingEnv
  | badLine (idx : Nat) (raw : String)
  | emptyField (idx : Nat) (raw : String)
  | noAccounts
deriving Repr, DecidableEq

/-- The `for idx, raw in enumerate(batch.splitlines(), start=1)` loop of
`build_accounts_from_env` (`src/login.py` lines 107–135), processing the
remaining raw lines with `idx` the 1-based index of the first of them. -/
def buildAccountsLoop : Nat → List String → Except ConfigError (List Account)
  | _, [] => Except.ok []
  | idx, raw :: rest =>
    let line := pyStrip raw
    if line = "" || startsWithHash line then buildAccountsLoop (idx + 1) rest
    else
      let parts := (pySplit ',' line).map pyStrip
      if parts.length ≠ 2 ∧ parts.length ≠ 4 then Except.error (ConfigError.badLine idx raw)
      else
        let email := parts.getD 0 ""
        let password := parts.getD 1 ""
        let tg_token := if parts.length = 4 then parts.getD 2 "" else ""
        let tg_chat := if parts.length = 4 then parts.getD 3 "" else ""
        if email = "" ∨ password = "" then Except.error (ConfigError.emptyField idx raw)
        else do
          let tail ← buildAccountsLoop (idx + 1) rest
          Except.ok (⟨email, password, tg_token, tg_chat⟩ :: tail)

/-- `build_accounts_from_env` from `src/login.py` lines 101–140, with the
`ACCOUNTS_BATCH` environment value passed explicitly. -/
def build_accounts_from_env (batchEnv : String) : Except ConfigError (List Account) :=
  let batch := pyStrip batchEnv
  if batch = "" then Except.error ConfigError.missingEnv
  else do
    let accounts ← buildAccountsLoop 1 (pySplitlines batch)
    if accounts.isEmpty then Except.error ConfigError.noAccounts
    else Except.ok accounts

/-- `tg_send` from `src/login.py` lines 84–98, modelled by the list of HTTP
deliveries it attempts: empty when token or chat id is blank after stripping,
otherwise one message to the `(token, chat_id)` pair.  Delivery failures are
swallowed by the source and are not modelled. -/
def tg_send (text token chat : String) : List ((String × String) × String) :=
  let t := pyStrip token
  let c := pyStrip chat
  if t = "" ∨ c = "" then [] else [((t, c), text)]

/-- Python `x or default` for the option-valued fields interpolated into the
per-account messages (`None` and `""` both fall back). -/
def orDefault (x : Option String) (dflt : String) : String :=
  match x with
  | none => dflt
  | some s => if s = "" then dflt else s

/-- The success message of `main` (`src/login.py` lines 416–424). -/
def okMsg (safe : String) (o : Outcome) : String :=
  "✅ Lunes BetaDash 登录成功\n账号：" ++ safe ++
  "\nserver_id：" ++ orDefault o.serverId "未提取到" ++
  "\nwelcome：" ++ orDefault o.welcome "未读取到" ++
  "\n退出：" ++ (if o.logoutOk then "✅ 成功" else "❌ 失败") ++
  "\n当前页：" ++ o.url ++
  "\ncf_clearance：" ++ (if o.hasCf then "OK" else "NONE")

/-- The failure message of `main` (`src/login.py` lines 426–433). -/
def failMsg (safe : String) (o : Outcome) : String :=
  "❌ Lunes BetaDash 登录失败\n账号：" ++ safe ++
  "\nwelcome：" ++ orDefault o.welcome "未检测到" ++
  "\n当前页：" ++ o.url ++
  "\ncf_clearance：" ++ (if o.hasCf then "OK" else "NONE")

/-- The exception message of `main` (`src/login.py` line 440). -/
def errMsg (safe err : String) : String :=
  "❌ Lunes BetaDash 脚本异常\n账号：" ++ safe ++ "\n错误：" ++ err

/-- The end-of-batch summary line of `main` (`src/login.py` line 449). -/
def summaryMsg (ok fail lo : Nat) : String :=
  "📌 本次批量完成：登录成功 " ++ toString ok ++ " / 失败 " ++ toString fail ++
  " | 退出成功 " ++ toString lo ++ "/" ++ toString ok

/-- Timing/ordering events of the orchestrator loop. -/
inductive Event where
  | account (i : Nat)
  | sleep (n : Nat)
deriving Repr, DecidableEq

instance exceptDecEq {ε α : Type} [DecidableEq ε] [DecidableEq α] :
    DecidableEq (Except ε α) := fun a b =>
  match a, b with
  | Except.ok x, Except.ok y =>
    match decEq x y with
    | isTrue h => isTrue (h ▸ rfl)
    | isFalse h => isFalse (fun e => h (Except.ok.inj e))
  | Except.error x, Except.error y =>
    match decEq x y with
    | isTrue h => isTrue (h ▸ rfl)
    | isFalse h => isFalse (fun e => h (Except.error.inj e))
  | Except.ok _, Except.error _ => isFalse (fun e => Except.noConfusion e)
  | Except.error _, Except.ok _ => isFalse (fun e => Except.noConfusion e)

/-- Mutable state of `main`'s loop (`ok`, `fail`, `logout_ok_count`,
`tg_dests`), extended with the observable outputs: the per-account results as
seen by the loop, the printed per-account messages, the per-account
notification deliveries, and the event trace.  `attempted` counts loop
iterations (the source's enumeration index `i` having reached that many
accounts). -/
structure BatchState where
  attempted : Nat
  ok : Nat
  fail : Nat
  logoutOkCount : Nat
  tgDests : List (String × String)
  outcomes : List (Except String Outcome)
  msgs : List String
  sends : List ((String × String) × String)
  trace : List Event
deriving Repr, DecidableEq

def initState : BatchState := ⟨0, 0, 0, 0, [], [], [], [], []⟩

/-- Python `set.add`: insertion-ordered model of the `tg_dests` set. -/
def setInsert (dests : List (String × String)) (p : String × String) :
    List (String × String) :=
  if p ∈ dests then dests else dests ++ [p]

/-- The `(ok, fail, logout_ok_count)` increments and the message of one
iteration of `main`'s account loop (`src/login.py` lines 407–442). -/
def accountUpdate (safe : String) (r : Except String Outcome) :
    Nat × Nat × Nat × String :=
  match r with
  | Except.ok o =>
    if o.status = "OK" then (1, 0, if o.logoutOk then 1 else 0, okMsg safe o)
    else (0, 1, 0, failMsg safe o)
  | Except.error e => (0, 1, 0, errMsg safe e)

/-- One iteration of `main`'s account loop (`src/login.py` lines 393–447).
`n` is `len(accounts)`, `i` the 1-based index, `r` what
`login_then_flow_one_account` returned (or the caught exception's message). -/
def stepAccount (n i : Nat) (a : Account) (r : Except String Outcome)
    (st : BatchState) : BatchState :=
  let tg_token := pyStrip a.tg_token
  let tg_chat := pyStrip a.tg_chat
  let dests :=
    if tg_token ≠ "" ∧ tg_chat ≠ "" then setInsert st.tgDests (tg_token, tg_chat)
    else st.tgDests
  let safe := mask_email_keep_domain a.email
  let upd := accountUpdate safe r
  { attempted := st.attempted + 1
    ok := st.ok + upd.1
    fail := st.fail + upd.2.1
    logoutOkCount := st.logoutOkCount + upd.2.2.1
    tgDests := dests
    outcomes := st.outcomes ++ [r]
    msgs := st.msgs ++ [upd.2.2.2]
    sends := st.sends ++ tg_send upd.2.2.2 tg_token tg_chat
    trace := st.trace ++ [Event.account i, Event.sleep 5] ++
      (if i < n then [Event.sleep 5] else []) }

/-- The account loop of `main`, driven by the oracle `results` giving each
(1-based) account index its session result. -/
def runLoop (n : Nat) (results : Nat → Except String Outcome) :
    Nat → List Account → BatchState → BatchState
  | _, [], st => st
  | i, a :: rest, st => runLoop n results (i + 1) rest (stepAccount n i a (results i) st)

/-- Lexicographic comparison on `(token, chat)` pairs (Python tuple `sorted`). -/
def pairLe (a b : String × String) : Bool :=
  if a.1 = b.1 then !(b.2 < a.2) else decide (a.1 < b.1)

/-- What a whole batch run produces. -/
structure RunResult where
  state : BatchState
  summary : String
  summarySends : List ((String × String) × String)
deriving Repr, DecidableEq

/-- The body of `main` after parsing (`src/login.py` lines 387–452):
run the loop, then send the summary to every `(token, chat)` pair of the
deduplicated set, in sorted order. -/
def runBatch (accounts : List Account) (results : Nat → Except String Outcome) :
    RunResult :=
  let st := runLoop accounts.length results 1 accounts initState
  let summary := summaryMsg st.ok st.fail st.logoutOkCount
  { state := st
    summary := summary
    summarySends :=
      (List.insertionSort (fun a b => pairLe a b) st.tgDests).flatMap
        (fun p => tg_send summary p.1 p.2) }

/-- `main` from `src/login.py` lines 383–456: parse the batch descriptor
first; only on success does any browser/account work happen. -/
def mainModel (batchEnv : String) (results : Nat → Except String Outcome) :
    Except ConfigError RunResult :=
  (build_accounts_from_env batchEnv).map (fun accounts => runBatch accounts results)

/-! ### Basic lemmas about the embedded string primitives -/

lemma isPrefixOf_append_self (l post : List Char) : l.isPrefixOf (l ++ post) = true := by
  induction l with
  | nil => simp [List.isPrefixOf]
  | cons c cs ih => simp [List.isPrefixOf, ih]

lemma isSubListOf_nil_needle (hay : List Char) : isSubListOf [] hay = true := by
  cases hay <;> simp [isSubListOf]

lemma isSubListOf_append_self (x post : List Char) : isSubListOf x (x ++ post) = true := by
  cases x with
  | nil => exact isSubListOf_nil_needle post
  | cons c cs => simp [isSubListOf, List.prefix_append]

lemma isSubListOf_mid (pre x post : List Char) :
    isSubListOf x (pre ++ (x ++ post)) = true := by
  induction pre with
  | nil => simpa using isSubListOf_append_self x post
  | cons c cs ih =>
    cases x with
    | nil => exact isSubListOf_nil_needle _
    | cons b bs =>
      simp only [List.cons_append, isSubListOf, Bool.or_eq_true]
      exact Or.inr (by simpa using ih)

lemma strContains_mid (pre x post : String) : strContains (pre ++ (x ++ post)) x = true := by
  unfold strContains
  rw [String.data_append, String.data_append]
  exact isSubListOf_mid pre.data x.data post.data

lemma pyStripList_eq_rdropWhile (l : List Char) :
    pyStripList l = List.rdropWhile pyIsSpace (l.dropWhile pyIsSpace) := rfl

lemma dropWhile_eq_self_of_pre {p : Char → Bool} :
    ∀ {l r : List Char}, l.dropWhile p = l → r <+: l → r.dropWhile p = r := by
  intro l r hl hr
  cases r with
  | nil => rfl
  | cons a r2 =>
    obtain ⟨t, ht⟩ := hr
    have hpa : p a = false := by
      by_contra hpa
      rw [Bool.not_eq_false] at hpa
      rw [← ht, List.cons_append] at hl
      rw [List.dropWhile_cons_of_pos (by simpa using hpa)] at hl
      have hlen := congrArg List.length hl
      have hle : (List.dropWhile p (r2 ++ t)).length ≤ (r2 ++ t).length :=
        (List.dropWhile_suffix p).sublist.length_le
      simp [List.length_append] at hlen hle
      omega
    simp [List.dropWhile_cons, hpa]

lemma pyStripList_idem (l : List Char) : pyStripList (pyStripList l) = pyStripList l := by
  rw [pyStripList_eq_rdropWhile, pyStripList_eq_rdropWhile]
  have hd : (l.dropWhile pyIsSpace).dropWhile pyIsSpace = l.dropWhile pyIsSpace :=
    List.dropWhile_idempotent pyIsSpace l
  have hpre : List.rdropWhile pyIsSpace (l.dropWhile pyIsSpace) <+: l.dropWhile pyIsSpace :=
    List.rdropWhile_prefix _ _
  rw [dropWhile_eq_self_of_pre hd hpre]
  exact List.rdropWhile_idempotent _ _

lemma pyStrip_idem (s : String) : pyStrip (pyStrip s) = pyStrip s := by
  unfold pyStrip
  exact congrArg String.mk (pyStripList_idem s.data)

/-! ### C3: resource-identifier extraction -/

/-- **C3.** Identifier extraction pattern-matches the link's href against the
detail-path-followed-by-digits shape (the spec's "/resource/<digits>" names
the source's `/servers/(\d+)` pattern): the identifier-bearing href yields the
digit string, an href with no trailing digits yields no identifier, and the
discovery step then reports failure (screenshot taken, no identifier) rather
than raising. -/
theorem claim_C3 :
    extract_server_id_from_href "/servers/63585" = some "63585"
    ∧ extract_server_id_from_href "/servers/abc" = none
    ∧ (∀ env : PostEnv, env.cardVisible = true →
        extract_server_id_from_href (if env.hrefRaises then "" else env.href) = none →
        find_server_id_and_go_server_page env =
          (none, false, [ScreenTag.serverIdExtractFailed])) := by
  refine ⟨by decide, by decide, ?_⟩
  intro env hcard hex
  unfold find_server_id_and_go_server_page
  rw [hcard]
  simp only [Bool.not_true, Bool.false_eq_true, if_false]
  rw [hex]

/-- Witness for C3 at a concrete environment whose href has no digits. -/
theorem claim_C3_witness :
    find_server_id_and_go_server_page
      ⟨true, false, "/servers/abc", true, true, true, true, false, "", false, true, true⟩ =
      (none, false, [ScreenTag.serverIdExtractFailed]) :=
  claim_C3.2.2 _ rfl (by decide)

/-! ### C10: email masking -/

lemma strExt {s t : String} (h : s.data = t.data) : s = t := by
  cases s; cases t; exact congrArg String.mk h

lemma splitAtFirst_eq (name domain : List Char) (h : '@' ∉ name) :
    splitAtFirst '@' (name ++ '@' :: domain) = (name, domain) := by
  induction name with
  | nil => simp [splitAtFirst]
  | cons c cs ih =>
    have hc : ¬(c = '@') := fun e => h (by simp [e])
    have hcs : '@' ∉ cs := fun m => h (List.mem_cons_of_mem _ m)
    simp [splitAtFirst, hc, ih hcs]

lemma contains_safe_okMsg (safe : String) (o : Outcome) :
    strContains (okMsg safe o) safe = true := by
  unfold okMsg
  simp only [String.append_assoc]
  exact strContains_mid _ _ _

lemma contains_safe_failMsg (safe : String) (o : Outcome) :
    strContains (failMsg safe o) safe = true := by
  unfold failMsg
  simp only [String.append_assoc]
  exact strContains_mid _ _ _

lemma contains_safe_errMsg (safe err : String) :
    strContains (errMsg safe err) safe = true := by
  unfold errMsg
  simp only [String.append_assoc]
  exact strContains_mid _ _ _

/-- **C10.** Every per-account console/notification message shows the masked
form of the account's email: the masking function preserves the domain of any
input containing `@`, reduces a local part of length ≥ 3 to first character,
asterisks, last character, keeps local parts of length 1 or 2 as they are,
renders an empty local part as `*`, and renders inputs without `@` as `***`;
and every message the orchestrator emits for an account contains the masked
email. -/
theorem claim_C10 :
    (∀ e : String, (pyStrip e).data.contains '@' = false →
      mask_email_keep_domain e = "***")
    ∧ (∀ e name domain : String,
        pyStrip e = name ++ "@" ++ domain → name.data.contains '@' = false →
        ((name.data.length = 0 → mask_email_keep_domain e = "*@" ++ domain)
         ∧ (name.data.length = 1 ∨ name.data.length = 2 →
             mask_email_keep_domain e = name ++ "@" ++ domain)
         ∧ (3 ≤ name.data.length →
             mask_email_keep_domain e =
               String.mk (name.data.take 1 ++ List.replicate (name.data.length - 2) '*' ++
                 name.data.drop (name.data.length - 1) ++ '@' :: domain.data))))
    ∧ (∀ n i : Nat, ∀ a : Account, ∀ r : Except String Outcome, ∀ st : BatchState,
        ∃ msg, (stepAccount n i a r st).msgs = st.msgs ++ [msg] ∧
          strContains msg (mask_email_keep_domain a.email) = true) := by
  refine ⟨?_, ?_, ?_⟩
  · intro e h
    have hm : '@' ∉ (pyStrip e).data := by
      intro hmem
      have hc : (pyStrip e).data.contains '@' = true := by simpa using hmem
      rw [hc] at h
      simp at h
    simp [mask_email_keep_domain, hm]
  · intro e name domain h hat
    have hrhs : (name ++ "@" ++ domain).data = name.data ++ '@' :: domain.data := by
      have h1 : ("@" : String).data = ['@'] := rfl
      simp [String.data_append, h1]
    have hdata : (pyStrip e).data = name.data ++ '@' :: domain.data := by
      rw [h]; exact hrhs
    have hnotmem : '@' ∉ name.data := by
      intro hm
      have hc : name.data.contains '@' = true := by simpa using hm
      rw [hat] at hc
      simp at hc
    have hmemlist : '@' ∈ (pyStrip e).data := by
      rw [hdata]; simp
    have hsplit : splitAtFirst '@' (pyStrip e).data = (name.data, domain.data) := by
      rw [hdata]; exact splitAtFirst_eq name.data domain.data hnotmem
    have hmask : mask_email_keep_domain e = String.mk (nameMask name.data ++ '@' :: domain.data) := by
      simp only [mask_email_keep_domain, hsplit]
      simp [hmemlist]
    refine ⟨?_, ?_, ?_⟩
    · intro h0
      have hnil : name.data = [] := List.length_eq_zero.mp h0
      rw [hmask, hnil]
      apply strExt
      have hstar : ("*@" : String).data = ['*', '@'] := rfl
      simp [nameMask, String.data_append, hstar]
    · intro h12
      rw [hmask]
      apply strExt
      have hnm : nameMask name.data = name.data := by
        rcases h12 with h1 | h2
        · have hne : name.data.isEmpty = false := by
            obtain ⟨a, ha⟩ := List.length_eq_one.mp h1
            simp [ha]
          simp [nameMask, h1, hne]
        · have htail : List.take 1 name.data ++ name.data.tail = name.data := by
            rw [← List.drop_one]
            exact List.take_append_drop 1 name.data
          simp [nameMask, h2, htail]
      rw [hnm, hrhs]
    · intro h3
      rw [hmask]
      have hn1 : ¬ name.data.length ≤ 1 := by omega
      have hn2 : ¬ name.data.length = 2 := by omega
      have hnm : nameMask name.data =
          name.data.take 1 ++ List.replicate (name.data.length - 2) '*' ++
            name.data.drop (name.data.length - 1) := by
        unfold nameMask
        rw [if_neg hn1, if_neg hn2]
      rw [hnm]
  · intro n i a r st
    cases r with
    | ok o =>
      by_cases hs : o.status = "OK"
      · refine ⟨okMsg (mask_email_keep_domain a.email) o, ?_, contains_safe_okMsg _ _⟩
        show st.msgs ++ [(accountUpdate (mask_email_keep_domain a.email) (Except.ok o)).2.2.2] = _
        rw [accountUpdate, if_pos hs]
      · refine ⟨failMsg (mask_email_keep_domain a.email) o, ?_, contains_safe_failMsg _ _⟩
        show st.msgs ++ [(accountUpdate (mask_email_keep_domain a.email) (Except.ok o)).2.2.2] = _
        rw [accountUpdate, if_neg hs]
    | error e =>
      exact ⟨errMsg (mask_email_keep_domain a.email) e, rfl, contains_safe_errMsg _ _⟩

/-- Witness for C10: the masking cases applied at a concrete email. -/
theorem claim_C10_witness :
    mask_email_keep_domain "abcd@dom" = "a**d@dom" :=
  ((claim_C10.2.1 "abcd@dom" "abcd" "dom" (by decide) (by decide)).2.2
    (by decide)).trans (by decide)

/-! ### C7: blank notification fields -/

lemma tg_send_blank (text token chat : String)
    (h : pyStrip token = "" ∨ pyStrip chat = "") : tg_send text token chat = [] := by
  unfold tg_send
  rcases h with h | h <;> simp [h]

/-- **C7.** A 2-field line parses to an Account whose two notify fields are
both empty, and the send operation is a silent no-op whenever token or chat id
is blank; in particular an account with a blank notify field contributes no
per-account delivery and no summary delivery. -/
theorem claim_C7 :
    buildAccountsLoop 1 ["a@example.com,pass1"] =
      Except.ok [⟨"a@example.com", "pass1", "", ""⟩]
    ∧ (∀ text token chat : String, pyStrip token = "" ∨ pyStrip chat = "" →
        tg_send text token chat = [])
    ∧ (∀ results : Nat → Except String Outcome, ∀ a : Account,
        pyStrip a.tg_token = "" ∨ pyStrip a.tg_chat = "" →
        (runBatch [a] results).state.sends = []
        ∧ (runBatch [a] results).summarySends = []) := by
  refine ⟨by decide, fun text token chat h => tg_send_blank text token chat h, ?_⟩
  intro results a h
  have hcond : ¬(pyStrip a.tg_token ≠ "" ∧ pyStrip a.tg_chat ≠ "") := by
    rcases h with h | h <;> simp [h]
  have h2 : pyStrip (pyStrip a.tg_token) = "" ∨ pyStrip (pyStrip a.tg_chat) = "" := by
    rcases h with h | h
    · exact Or.inl (by rw [pyStrip_idem, h])
    · exact Or.inr (by rw [pyStrip_idem, h])
  constructor
  · show (stepAccount 1 1 a (results 1) initState).sends = []
    simp [stepAccount, initState, tg_send_blank _ _ _ h2]
  · have hdests : (runLoop 1 results 1 [a] initState).tgDests = [] := by
      show (stepAccount 1 1 a (results 1) initState).tgDests = []
      simp [stepAccount, initState, hcond]
    simp [runBatch, hdests]

/-- Witness for C7 at a concrete parsed 2-field account. -/
theorem claim_C7_witness :
    (runBatch [⟨"a@example.com", "pass1", "", ""⟩] (fun _ => Except.error "boom")).state.sends = []
    ∧ (runBatch [⟨"a@example.com", "pass1", "", ""⟩] (fun _ => Except.error "boom")).summarySends = [] :=
  claim_C7.2.2 _ _ (Or.inl rfl)

/-! ### C8: notification-target deduplication and summary fan-out -/

lemma setInsert_mem (d : List (String × String)) (q p : String × String) :
    p ∈ setInsert d q ↔ p ∈ d ∨ p = q := by
  unfold setInsert
  by_cases h : q ∈ d
  · simp only [if_pos h]
    constructor
    · exact Or.inl
    · rintro (h1 | rfl)
      · exact h1
      · exact h
  · simp [h, List.mem_append]

lemma setInsert_nodup (d : List (String × String)) (q : String × String)
    (h : d.Nodup) : (setInsert d q).Nodup := by
  unfold setInsert
  by_cases hq : q ∈ d
  · simp [hq, h]
  · simp [hq, h, List.nodup_append]

/-- The pair a single loop iteration may add to `tg_dests`. -/
def accountDest (a : Account) : String × String :=
  (pyStrip a.tg_token, pyStrip a.tg_chat)

lemma stepAccount_dests (n i : Nat) (a : Account) (r : Except String Outcome)
    (st : BatchState) :
    (stepAccount n i a r st).tgDests =
      if pyStrip a.tg_token ≠ "" ∧ pyStrip a.tg_chat ≠ "" then
        setInsert st.tgDests (accountDest a)
      else st.tgDests := rfl

lemma runLoop_dests_mem (n : Nat) (results : Nat → Except String Outcome) :
    ∀ (accs : List Account) (i : Nat) (st : BatchState) (p : String × String),
      p ∈ (runLoop n results i accs st).tgDests ↔
        p ∈ st.tgDests ∨ (p.1 ≠ "" ∧ p.2 ≠ "" ∧ ∃ a ∈ accs,
          pyStrip a.tg_token = p.1 ∧ pyStrip a.tg_chat = p.2) := by
  intro accs
  induction accs with
  | nil => intro i st p; simp [runLoop]
  | cons a rest ih =>
    intro i st p
    show p ∈ (runLoop n results (i + 1) rest (stepAccount n i a (results i) st)).tgDests ↔ _
    rw [ih]
    rw [stepAccount_dests]
    by_cases hc : pyStrip a.tg_token ≠ "" ∧ pyStrip a.tg_chat ≠ ""
    · rw [if_pos hc, setInsert_mem]
      constructor
      · rintro ((hp | rfl) | hr)
        · exact Or.inl hp
        · exact Or.inr ⟨hc.1, hc.2, a, List.mem_cons_self a rest, rfl, rfl⟩
        · obtain ⟨h1, h2, b, hb, hb1, hb2⟩ := hr
          exact Or.inr ⟨h1, h2, b, List.mem_cons_of_mem _ hb, hb1, hb2⟩
      · rintro (hp | ⟨h1, h2, b, hb, hb1, hb2⟩)
        · exact Or.inl (Or.inl hp)
        · rcases List.mem_cons.mp hb with rfl | hb
          · refine Or.inl (Or.inr ?_)
            cases p
            simp only [accountDest]
            simp at hb1 hb2
            rw [hb1, hb2]
          · exact Or.inr ⟨h1, h2, b, hb, hb1, hb2⟩
    · rw [if_neg hc]
      constructor
      · rintro (hp | hr)
        · exact Or.inl hp
        · obtain ⟨h1, h2, b, hb, hb1, hb2⟩ := hr
          exact Or.inr ⟨h1, h2, b, List.mem_cons_of_mem _ hb, hb1, hb2⟩
      · rintro (hp | ⟨h1, h2, b, hb, hb1, hb2⟩)
        · exact Or.inl hp
        · rcases List.mem_cons.mp hb with rfl | hb
          · exact absurd ⟨hb1 ▸ h1, hb2 ▸ h2⟩ hc
          · exact Or.inr ⟨h1, h2, b, hb, hb1, hb2⟩

lemma runLoop_dests_nodup (n : Nat) (results : Nat → Except String Outcome) :
    ∀ (accs : List Account) (i : Nat) (st : BatchState),
      st.tgDests.Nodup → (runLoop n results i accs st).tgDests.Nodup := by
  intro accs
  induction accs with
  | nil => intro i st h; exact h
  | cons a rest ih =>
    intro i st h
    show (runLoop n results (i + 1) rest (stepAccount n i a (results i) st)).tgDests.Nodup
    apply ih
    rw [stepAccount_dests]
    by_cases hc : pyStrip a.tg_token ≠ "" ∧ pyStrip a.tg_chat ≠ ""
    · rw [if_pos hc]; exact setInsert_nodup _ _ h
    · rw [if_neg hc]; exact h

lemma flatMap_tg_send_eq_map (s : String) :
    ∀ l : List (String × String),
      (∀ p ∈ l, pyStrip p.1 = p.1 ∧ pyStrip p.2 = p.2 ∧ p.1 ≠ "" ∧ p.2 ≠ "") →
      l.flatMap (fun p => tg_send s p.1 p.2) = l.map (fun p => (p, s)) := by
  intro l
  induction l with
  | nil => intro _; rfl
  | cons q rest ih =>
    intro h
    obtain ⟨h1, h2, h3, h4⟩ := h q (List.mem_cons_self q rest)
    have hq : tg_send s q.1 q.2 = [((q.1, q.2), s)] := by
      unfold tg_send
      rw [h1, h2]
      simp [h3, h4]
    have hrest := ih (fun p hp => h p (List.mem_cons_of_mem _ hp))
    simp [List.flatMap_cons, hq, hrest]

/-- **C8.** A 4-field line populates both notify fields; the `(token, chat)`
pair of an account is tracked at most once (the target set has no duplicates,
and membership is exactly "some account of the batch carries this non-blank
pair"); the end-of-batch summary is sent exactly once to every distinct
tracked pair. -/
theorem claim_C8 :
    buildAccountsLoop 1 ["a@example.com,pass1,123:ABC,999"] =
      Except.ok [⟨"a@example.com", "pass1", "123:ABC", "999"⟩]
    ∧ (∀ (accounts : List Account) (results : Nat → Except String Outcome),
        (runBatch accounts results).state.tgDests.Nodup
        ∧ (∀ p : String × String,
            p ∈ (runBatch accounts results).state.tgDests ↔
              p.1 ≠ "" ∧ p.2 ≠ "" ∧ ∃ a ∈ accounts,
                pyStrip a.tg_token = p.1 ∧ pyStrip a.tg_chat = p.2)
        ∧ (runBatch accounts results).summarySends =
            (List.insertionSort (fun a b => pairLe a b)
              (runBatch accounts results).state.tgDests).map
              (fun p => (p, (runBatch accounts results).summary))
        ∧ ((runBatch accounts results).summarySends.map Prod.fst).Nodup) := by
  refine ⟨by decide, ?_⟩
  intro accounts results
  have hstate : (runBatch accounts results).state =
      runLoop accounts.length results 1 accounts initState := rfl
  have hmem : ∀ p : String × String,
      p ∈ (runBatch accounts results).state.tgDests ↔
        p.1 ≠ "" ∧ p.2 ≠ "" ∧ ∃ a ∈ accounts,
          pyStrip a.tg_token = p.1 ∧ pyStrip a.tg_chat = p.2 := by
    intro p
    rw [hstate, runLoop_dests_mem]
    simp [initState]
  have hnd : (runBatch accounts results).state.tgDests.Nodup := by
    rw [hstate]
    exact runLoop_dests_nodup _ _ _ _ _ (by simp [initState])
  have hperm : List.Perm
      (List.insertionSort (fun a b => pairLe a b)
        ((runBatch accounts results).state.tgDests))
      ((runBatch accounts results).state.tgDests) :=
    List.perm_insertionSort _ _
  have hsorted_cond : ∀ p ∈ List.insertionSort (fun a b => pairLe a b)
      ((runBatch accounts results).state.tgDests),
      pyStrip p.1 = p.1 ∧ pyStrip p.2 = p.2 ∧ p.1 ≠ "" ∧ p.2 ≠ "" := by
    intro p hp
    have hpd := hperm.mem_iff.mp hp
    obtain ⟨h1, h2, a, _, ha1, ha2⟩ := (hmem p).mp hpd
    refine ⟨?_, ?_, h1, h2⟩
    · rw [← ha1, pyStrip_idem]
    · rw [← ha2, pyStrip_idem]
  have hsends : (runBatch accounts results).summarySends =
      (List.insertionSort (fun a b => pairLe a b)
        ((runBatch accounts results).state.tgDests)).map
        (fun p => (p, (runBatch accounts results).summary)) := by
    show (List.insertionSort (fun a b => pairLe a b)
        ((runBatch accounts results).state.tgDests)).flatMap
        (fun p => tg_send (runBatch accounts results).summary p.1 p.2) = _
    exact flatMap_tg_send_eq_map _ _ hsorted_cond
  refine ⟨hnd, hmem, hsends, ?_⟩
  rw [hsends]
  have hfst : ((List.insertionSort (fun a b => pairLe a b)
      ((runBatch accounts results).state.tgDests)).map
      (fun p => (p, (runBatch accounts results).summary))).map Prod.fst =
      List.insertionSort (fun a b => pairLe a b)
        ((runBatch accounts results).state.tgDests) := by
    simp only [List.map_map]
    have hcomp : (Prod.fst ∘ fun p : String × String =>
        (p, (runBatch accounts results).summary)) = id := rfl
    rw [hcomp, List.map_id]
  rw [hfst]
  exact hperm.nodup_iff.mpr hnd

/-! ### C2: login-success detection -/

lemma detectFrom_succ (pages : Nat → PageState) (k fuel : Nat) (wt : Option String) :
    detectFrom pages k (fuel + 1) wt =
      if (is_logged_in (pages k)).1 = true then (true, (is_logged_in (pages k)).2)
      else detectFrom pages (k + 1) fuel (is_logged_in (pages k)).2 := rfl

lemma detectFrom_none (pages : Nat → PageState) :
    ∀ (fuel k : Nat) (wt : Option String),
      (∀ j, j < fuel + 1 → (is_logged_in (pages (k + j))).1 = false) →
      detectFrom pages k (fuel + 1) wt = (false, (is_logged_in (pages (k + fuel))).2) := by
  intro fuel
  induction fuel with
  | zero =>
    intro k wt h
    have h0 := h 0 (by omega)
    simp only [Nat.add_zero] at h0 ⊢
    rw [detectFrom_succ, if_neg (by simp [h0])]
    rfl
  | succ fuel ih =>
    intro k wt h
    have h0 := h 0 (by omega)
    simp only [Nat.add_zero] at h0
    have hshift : ∀ j, j < fuel + 1 → (is_logged_in (pages (k + 1 + j))).1 = false := by
      intro j hj
      have := h (j + 1) (by omega)
      rw [show k + (j + 1) = k + 1 + j by omega] at this
      exact this
    have hrec := ih (k + 1) (is_logged_in (pages k)).2 hshift
    rw [detectFrom_succ, if_neg (by simp [h0]), hrec,
      show k + 1 + fuel = k + (fuel + 1) by omega]

lemma detectFrom_first (pages : Nat → PageState) :
    ∀ (fuel k j : Nat) (wt : Option String), j < fuel →
      (is_logged_in (pages (k + j))).1 = true →
      (∀ j2, j2 < j → (is_logged_in (pages (k + j2))).1 = false) →
      detectFrom pages k fuel wt = is_logged_in (pages (k + j)) := by
  intro fuel
  induction fuel with
  | zero => intro k j wt hj; exact absurd hj (by omega)
  | succ fuel ih =>
    intro k j wt hj htrue hprev
    cases j with
    | zero =>
      simp only [Nat.add_zero] at htrue ⊢
      rw [detectFrom_succ, if_pos htrue, ← htrue]
    | succ j2 =>
      have h0 := hprev 0 (by omega)
      simp only [Nat.add_zero] at h0
      rw [detectFrom_succ, if_neg (by simp [h0])]
      have ht2 : (is_logged_in (pages (k + 1 + j2))).1 = true := by
        rw [show k + 1 + j2 = k + (j2 + 1) by omega]
        exact htrue
      have hp2 : ∀ j3, j3 < j2 → (is_logged_in (pages (k + 1 + j3))).1 = false := by
        intro j3 hj3
        have := hprev (j3 + 1) (by omega)
        rw [show k + (j3 + 1) = k + 1 + j3 by omega] at this
        exact this
      rw [ih (k + 1) j2 _ (by omega) ht2 hp2,
        show k + 1 + j2 = k + (j2 + 1) by omega]

lemma detectFrom_true (pages : Nat → PageState) :
    ∀ (fuel k : Nat) (wt : Option String),
      (∃ j, j < fuel ∧ (is_logged_in (pages (k + j))).1 = true) →
      (detectFrom pages k fuel wt).1 = true := by
  intro fuel
  induction fuel with
  | zero => rintro k wt ⟨j, hj, _⟩; exact absurd hj (by omega)
  | succ fuel ih =>
    rintro k wt ⟨j, hj, ht⟩
    by_cases h0 : (is_logged_in (pages k)).1 = true
    · rw [detectFrom_succ, if_pos h0]
    · rw [detectFrom_succ, if_neg h0]
      apply ih
      cases j with
      | zero =>
        rw [Nat.add_zero] at ht
        exact absurd ht h0
      | succ j2 =>
        refine ⟨j2, by omega, ?_⟩
        rw [show k + 1 + j2 = k + (j2 + 1) by omega]
        exact ht

/-- **C2.** Login detection declares success exactly when the welcome-text
signal or the logout-visibility signal fires; the polling loop of 10 attempts
returns at the first attempt where a signal fires; when no attempt fires the
loop returns failure with the last captured welcome text, and the session then
returns a FAIL outcome carrying that welcome text and the cookie-bypass
diagnostic. -/
theorem claim_C2 :
    (∀ p : PageState, (is_logged_in p).1 = (welcomeFires p || logoutFires p))
    ∧ (∀ (pages : Nat → PageState) (k : Nat), k < 10 →
        (is_logged_in (pages k)).1 = true →
        (∀ j, j < k → (is_logged_in (pages j)).1 = false) →
        detect_login pages = is_logged_in (pages k))
    ∧ (∀ pages : Nat → PageState,
        (∀ k, k < 10 → (is_logged_in (pages k)).1 = false) →
        detect_login pages = (false, (is_logged_in (pages 9)).2))
    ∧ (∀ (env : SessionEnv) (wt : Option String), env.formVisible = true →
        detect_login env.pages = (false, wt) →
        login_then_flow_one_account env =
          ⟨"FAIL", wt, env.hasCf, pyStrip env.currentUrl, none, false⟩) := by
  refine ⟨?_, ?_, ?_, ?_⟩
  · intro p
    cases hr : p.heroRaises <;> cases hv : p.heroVisible <;>
      cases lr : p.logoutRaises <;> cases lv : p.logoutVisible <;>
        simp [is_logged_in, welcomeFires, logoutFires, hr, hv, lr, lv] <;>
          by_cases h2 : strContains (strLower (pyStrip p.heroText)) "welcome back" = true <;>
            simp [h2]
  · intro pages k hk ht hprev
    have h := detectFrom_first pages 10 0 k none hk (by simpa using ht)
      (fun j2 hj2 => by simpa using hprev j2 hj2)
    simpa [detect_login] using h
  · intro pages h
    have h9 := detectFrom_none pages 9 0 none (fun j hj => by simpa using h j (by omega))
    simpa [detect_login] using h9
  · intro env wt hform hdet
    simp [login_then_flow_one_account, hform, hdet]

/-- Witness for C2: a page sequence where no signal ever fires yields failure
with the partially captured welcome text. -/
theorem claim_C2_witness :
    detect_login (fun _ => ⟨false, true, "no match", false, false⟩) =
      (false, some "no match") :=
  (claim_C2.2.2.1 (fun _ => ⟨false, true, "no match", false, false⟩)
    (fun _ _ => rfl)).trans (by decide)

/-! ### C4: logout verification -/

/-- **C4.** Once the logout click went through, logout verification succeeds
iff the current URL contains the login-path marker or both login-form inputs
are visible again (each path alone suffices); when neither holds the
verification result is false and the verification-failure screenshot is taken;
and an account whose login detection succeeded always gets status OK,
regardless of the logout fields. -/
theorem claim_C4 :
    (∀ env : PostEnv, (find_server_id_and_go_server_page env).2.1 = true →
      env.backHomeOk = true → env.logoutClickOk = true →
      ((post_login_visit_then_logout env).2.1 =
        (strContains (strLower (if env.urlRaises then "" else env.urlNow)) "/login" ||
         (!env.visRaises && env.emailVisible && env.passVisible))
       ∧ ((post_login_visit_then_logout env).2.1 = false →
           ScreenTag.logoutVerifyFailed ∈ (post_login_visit_then_logout env).2.2)))
    ∧ (∀ env : SessionEnv, env.formVisible = true →
        (detect_login env.pages).1 = true →
        (login_then_flow_one_account env).status = "OK") := by
  constructor
  · intro env hent hb hl
    by_cases hu : strContains (strLower (if env.urlRaises then "" else env.urlNow)) "/login" = true
    · constructor
      · simp [post_login_visit_then_logout, hent, hb, hl, hu]
      · intro hfalse
        rw [(by simp [post_login_visit_then_logout, hent, hb, hl, hu] :
          (post_login_visit_then_logout env).2.1 = true)] at hfalse
        exact absurd hfalse (by simp)
    · by_cases hv : (!env.visRaises && env.emailVisible && env.passVisible) = true
      · constructor
        · simp [post_login_visit_then_logout, hent, hb, hl, hu, hv]
        · intro hfalse
          rw [(by simp [post_login_visit_then_logout, hent, hb, hl, hu, hv] :
            (post_login_visit_then_logout env).2.1 = true)] at hfalse
          exact absurd hfalse (by simp)
      · constructor
        · simp [post_login_visit_then_logout, hent, hb, hl, hu, hv]
        · intro _
          simp [post_login_visit_then_logout, hent, hb, hl, hu, hv]
  · intro env hform hdet
    simp [login_then_flow_one_account, hform, hdet]

/-- Witness for C4 at a concrete environment where the URL path fires. -/
theorem claim_C4_witness :
    (post_login_visit_then_logout
      ⟨true, false, "/servers/7", true, true, true, true, false,
        "https://x/login?next=/", false, false, false⟩).2.1 = true :=
  ((claim_C4.1 _ (by decide) rfl rfl).1).trans (by decide)

/-! ### C5: click-path fallback -/

lemma post_login_fst (env : PostEnv) :
    (post_login_visit_then_logout env).1 = (find_server_id_and_go_server_page env).1 := by
  unfold post_login_visit_then_logout
  dsimp only
  repeat' (first | rfl | split)

/-- **C5.** When the resource-link click fails, the step falls back to the
templated detail URL: fallback success still enters (with the extracted
identifier and no screenshot); when both paths fail the step reports entry
failure while still returning the identifier; the post-login result does not
depend on which entry path was taken; and a session entered via the fallback
is still a Success carrying the identifier. -/
theorem claim_C5 :
    (∀ (env : PostEnv) (sid : String), env.cardVisible = true →
      extract_server_id_from_href (if env.hrefRaises then "" else env.href) = some sid →
      env.clickOk = false →
      ((env.openOk = true →
         find_server_id_and_go_server_page env = (some sid, true, []))
       ∧ (env.openOk = false →
         find_server_id_and_go_server_page env =
           (some sid, false, [ScreenTag.gotoServerFailed]))))
    ∧ (∀ env : PostEnv, env.openOk = true →
        post_login_visit_then_logout { env with clickOk := false } =
          post_login_visit_then_logout { env with clickOk := true })
    ∧ (∀ (senv : SessionEnv) (sid : String), senv.formVisible = true →
        (detect_login senv.pages).1 = true →
        senv.post.cardVisible = true → senv.post.clickOk = false →
        senv.post.openOk = true →
        extract_server_id_from_href
          (if senv.post.hrefRaises then "" else senv.post.href) = some sid →
        (login_then_flow_one_account senv).status = "OK"
        ∧ (login_then_flow_one_account senv).serverId = some sid) := by
  refine ⟨?_, ?_, ?_⟩
  · intro env sid hcard hex hclick
    constructor
    · intro ho
      simp [find_server_id_and_go_server_page, hcard, hex, hclick, ho]
    · intro ho
      simp [find_server_id_and_go_server_page, hcard, hex, hclick, ho]
  · intro env ho
    by_cases hcard : env.cardVisible = true
    · cases hex : extract_server_id_from_href (if env.hrefRaises then "" else env.href) with
      | none =>
        simp [post_login_visit_then_logout, find_server_id_and_go_server_page, hcard, hex]
      | some sid =>
        simp [post_login_visit_then_logout, find_server_id_and_go_server_page,
          hcard, hex, ho]
    · have hcard2 : env.cardVisible = false := by simpa using hcard
      simp [post_login_visit_then_logout, find_server_id_and_go_server_page, hcard2]
  · intro senv sid hform hdet hcard hclick hopen hex
    have hfind : find_server_id_and_go_server_page senv.post = (some sid, true, []) := by
      simp [find_server_id_and_go_server_page, hcard, hex, hclick, hopen]
    have hsid : (post_login_visit_then_logout senv.post).1 = some sid := by
      rw [post_login_fst, hfind]
    constructor
    · simp [login_then_flow_one_account, hform, hdet]
    · simp [login_then_flow_one_account, hform, hdet, hsid]

/-- Witness for C5: click path fails, direct open succeeds, identifier kept. -/
theorem claim_C5_witness :
    find_server_id_and_go_server_page
      ⟨true, false, "/servers/42", false, true, true, true, false, "u", false, true, true⟩ =
      (some "42", true, []) :=
  ((claim_C5.1 _ "42" rfl (by decide) rfl).1) rfl

/-! ### C6: fatal configuration errors at parse time -/

/-- A raw line the parser does not skip (non-empty, non-comment after strip). -/
def lineActive (raw : String) : Bool :=
  !(pyStrip raw = "" || startsWithHash (pyStrip raw))

/-- The stripped comma-separated fields of a raw line. -/
def lineParts (raw : String) : List String :=
  (pySplit ',' (pyStrip raw)).map pyStrip

/-- A raw line on which the parser raises: active, and either the field count
is not 2 or 4 or a required field is empty. -/
def lineBad (raw : String) : Bool :=
  lineActive raw &&
    (decide ((lineParts raw).length ≠ 2 ∧ (lineParts raw).length ≠ 4) ||
     decide ((lineParts raw).getD 0 "" = "" ∨ (lineParts raw).getD 1 "" = ""))

lemma buildAccountsLoop_error_of_bad :
    ∀ (lines : List String) (idx : Nat),
      (∃ raw ∈ lines, lineBad raw = true) →
      ∃ j raw, lines[j]? = some raw ∧ lineBad raw = true ∧
        (buildAccountsLoop idx lines = Except.error (ConfigError.badLine (idx + j) raw) ∨
         buildAccountsLoop idx lines = Except.error (ConfigError.emptyField (idx + j) raw)) := by
  intro lines
  induction lines with
  | nil =>
    rintro idx ⟨raw, hmem, _⟩
    exact absurd hmem (List.not_mem_nil raw)
  | cons raw0 rest ih =>
    intro idx hex
    by_cases hact : lineActive raw0 = true
    · have hcond1 : (pyStrip raw0 = "" || startsWithHash (pyStrip raw0)) = false := by
        have h2 := hact
        unfold lineActive at h2
        cases hc : (pyStrip raw0 = "" || startsWithHash (pyStrip raw0))
        · rfl
        · rw [hc] at h2
          simp at h2
      by_cases hcnt : (lineParts raw0).length = 2 ∨ (lineParts raw0).length = 4
      · by_cases hf : (lineParts raw0).getD 0 "" = "" ∨ (lineParts raw0).getD 1 "" = ""
        · refine ⟨0, raw0, by simp, ?_, Or.inr ?_⟩
          · unfold lineBad
            rw [hact, decide_eq_true hf]
            simp
          · have hncnt : ¬((lineParts raw0).length ≠ 2 ∧ (lineParts raw0).length ≠ 4) := by
              rcases hcnt with h | h <;> simp [h]
            simp only [buildAccountsLoop, hcond1, Bool.false_eq_true, if_false]
            rw [if_neg (by simpa [lineParts] using hncnt), if_pos (by simpa [lineParts] using hf)]
            simp
        · -- the head line parses fine: the bad line is in the tail
          have hncnt : ¬((lineParts raw0).length ≠ 2 ∧ (lineParts raw0).length ≠ 4) := by
            rcases hcnt with h | h <;> simp [h]
          have hbad0 : lineBad raw0 = false := by
            unfold lineBad
            rw [hact, decide_eq_false hncnt, decide_eq_false hf]
            rfl
          obtain ⟨raw, hmem, hbad⟩ := hex
          rcases List.mem_cons.mp hmem with rfl | hmem2
          · rw [hbad0] at hbad
            exact absurd hbad (by simp)
          · obtain ⟨j, raw2, hget, hbad2, herr⟩ := ih (idx + 1) ⟨raw, hmem2, hbad⟩
            refine ⟨j + 1, raw2, by simpa using hget, hbad2, ?_⟩
            have hred : ∀ E : ConfigError,
                buildAccountsLoop (idx + 1) rest = Except.error E →
                buildAccountsLoop idx (raw0 :: rest) = Except.error E := by
              intro E hE
              simp only [buildAccountsLoop, hcond1, Bool.false_eq_true, if_false]
              rw [if_neg (by simpa [lineParts] using hncnt),
                if_neg (by simpa [lineParts] using hf), hE]
              rfl
            rw [show idx + (j + 1) = idx + 1 + j by omega]
            rcases herr with herr | herr
            · exact Or.inl (hred _ herr)
            · exact Or.inr (hred _ herr)
      · have hcnt2 : (lineParts raw0).length ≠ 2 ∧ (lineParts raw0).length ≠ 4 := by
          constructor <;> intro h <;> exact hcnt (by simp [h])
        refine ⟨0, raw0, by simp, ?_, Or.inl ?_⟩
        · unfold lineBad
          rw [hact, decide_eq_true hcnt2]
          rfl
        · simp only [buildAccountsLoop, hcond1, Bool.false_eq_true, if_false]
          rw [if_pos (by simpa [lineParts] using hcnt2)]
          simp
    · -- skipped line: recurse
      have h2 : lineActive raw0 = false := by
        cases hl : lineActive raw0
        · rfl
        · exact absurd hl hact
      have hcond1 : (pyStrip raw0 = "" || startsWithHash (pyStrip raw0)) = true := by
        unfold lineActive at h2
        cases hc : (pyStrip raw0 = "" || startsWithHash (pyStrip raw0))
        · rw [hc] at h2
          simp at h2
        · rfl
      have hbad0 : lineBad raw0 = false := by
        unfold lineBad
        rw [h2]
        rfl
      obtain ⟨raw, hmem, hbad⟩ := hex
      rcases List.mem_cons.mp hmem with rfl | hmem2
      · rw [hbad0] at hbad
        exact absurd hbad (by simp)
      · obtain ⟨j, raw2, hget, hbad2, herr⟩ := ih (idx + 1) ⟨raw, hmem2, hbad⟩
        refine ⟨j + 1, raw2, by simpa using hget, hbad2, ?_⟩
        have hred : buildAccountsLoop idx (raw0 :: rest) = buildAccountsLoop (idx + 1) rest := by
          simp only [buildAccountsLoop, hcond1, if_true]
        rw [show idx + (j + 1) = idx + 1 + j by omega, hred]
        exact herr

/-- **C6.** Parsing the batch descriptor raises a fatal configuration error —
before any account work, referencing the 1-based line number — for every
active line whose field count is not 2 or 4 (every 3-field line in
particular) and for every line with an empty email or password field. -/
theorem claim_C6 :
    (∀ raw : String, lineActive raw = true → (lineParts raw).length = 3 →
      lineBad raw = true)
    ∧ (∀ (batchEnv : String) (results : Nat → Except String Outcome),
        (∃ raw ∈ pySplitlines (pyStrip batchEnv), lineBad raw = true) →
        ∃ j raw, 1 ≤ j ∧ (pySplitlines (pyStrip batchEnv))[j - 1]? = some raw ∧
          lineBad raw = true ∧
          (mainModel batchEnv results = Except.error (ConfigError.badLine j raw) ∨
           mainModel batchEnv results = Except.error (ConfigError.emptyField j raw))) := by
  constructor
  · intro raw hact h3
    simp [lineBad, hact, h3]
  · intro batchEnv results hex
    have hne : ¬ (pyStrip batchEnv = "") := by
      intro h0
      obtain ⟨raw, hmem, _⟩ := hex
      rw [h0] at hmem
      exact absurd hmem (List.not_mem_nil raw)
    obtain ⟨j, raw, hget, hbad, herr⟩ :=
      buildAccountsLoop_error_of_bad (pySplitlines (pyStrip batchEnv)) 1 hex
    refine ⟨1 + j, raw, by omega, by simpa using hget, hbad, ?_⟩
    have hbuild : ∀ E : ConfigError,
        buildAccountsLoop 1 (pySplitlines (pyStrip batchEnv)) = Except.error E →
        build_accounts_from_env batchEnv = Except.error E := by
      intro E hE
      unfold build_accounts_from_env
      dsimp only
      rw [if_neg hne, hE]
      rfl
    rcases herr with herr | herr
    · exact Or.inl (by simp [mainModel, hbuild _ herr, Except.map])
    · exact Or.inr (by simp [mainModel, hbuild _ herr, Except.map])

/-- Witness for C6: a 3-field line is rejected with its 1-based index. -/
theorem claim_C6_witness :
    ∃ j raw, 1 ≤ j ∧
      (pySplitlines (pyStrip "a@x.com,p,extra"))[j - 1]? = some raw ∧
      lineBad raw = true ∧
      (mainModel "a@x.com,p,extra" (fun _ => Except.error "") =
        Except.error (ConfigError.badLine j raw) ∨
       mainModel "a@x.com,p,extra" (fun _ => Except.error "") =
        Except.error (ConfigError.emptyField j raw)) :=
  claim_C6.2 "a@x.com,p,extra" (fun _ => Except.error "")
    ⟨"a@x.com,p,extra", by decide, by decide⟩

/-! ### C1: batch counters -/

/-- The per-account results the loop counts as a login success. -/
def isOkOutcome (r : Except String Outcome) : Bool :=
  match r with
  | Except.ok o => o.status = "OK"
  | Except.error _ => false

/-- The per-account results the loop counts as a verified logout. -/
def isLogoutCounted (r : Except String Outcome) : Bool :=
  match r with
  | Except.ok o => (o.status = "OK") && o.logoutOk
  | Except.error _ => false

/-- Number of login successes among the accounts starting at index `i`. -/
def cntOk (results : Nat → Except String Outcome) : Nat → List Account → Nat
  | _, [] => 0
  | i, _ :: rest => (if isOkOutcome (results i) then 1 else 0) + cntOk results (i + 1) rest

/-- Number of login failures among the accounts starting at index `i`. -/
def cntFail (results : Nat → Except String Outcome) : Nat → List Account → Nat
  | _, [] => 0
  | i, _ :: rest => (if isOkOutcome (results i) then 0 else 1) + cntFail results (i + 1) rest

/-- Number of verified logouts among the accounts starting at index `i`. -/
def cntLogout (results : Nat → Except String Outcome) : Nat → List Account → Nat
  | _, [] => 0
  | i, _ :: rest => (if isLogoutCounted (results i) then 1 else 0) + cntLogout results (i + 1) rest

lemma stepAccount_ok (n i : Nat) (a : Account) (r : Except String Outcome) (st : BatchState) :
    (stepAccount n i a r st).ok = st.ok + (if isOkOutcome r then 1 else 0) := by
  cases r with
  | ok o =>
    show st.ok + (accountUpdate (mask_email_keep_domain a.email) (Except.ok o)).1 = _
    unfold accountUpdate isOkOutcome
    by_cases hs : o.status = "OK" <;> simp [hs]
  | error e => simp [isOkOutcome]; rfl

lemma stepAccount_fail (n i : Nat) (a : Account) (r : Except String Outcome) (st : BatchState) :
    (stepAccount n i a r st).fail = st.fail + (if isOkOutcome r then 0 else 1) := by
  cases r with
  | ok o =>
    show st.fail + (accountUpdate (mask_email_keep_domain a.email) (Except.ok o)).2.1 = _
    unfold accountUpdate isOkOutcome
    by_cases hs : o.status = "OK" <;> simp [hs]
  | error e => simp [isOkOutcome]; rfl

lemma stepAccount_logout (n i : Nat) (a : Account) (r : Except String Outcome) (st : BatchState) :
    (stepAccount n i a r st).logoutOkCount =
      st.logoutOkCount + (if isLogoutCounted r then 1 else 0) := by
  cases r with
  | ok o =>
    show st.logoutOkCount + (accountUpdate (mask_email_keep_domain a.email) (Except.ok o)).2.2.1 = _
    unfold accountUpdate isLogoutCounted
    by_cases hs : o.status = "OK" <;> by_cases hl : o.logoutOk = true <;> simp [hs, hl]
  | error e => simp [isLogoutCounted]; rfl

lemma runLoop_counters (n : Nat) (results : Nat → Except String Outcome) :
    ∀ (accs : List Account) (i : Nat) (st : BatchState),
      (runLoop n results i accs st).attempted = st.attempted + accs.length ∧
      (runLoop n results i accs st).ok = st.ok + cntOk results i accs ∧
      (runLoop n results i accs st).fail = st.fail + cntFail results i accs ∧
      (runLoop n results i accs st).logoutOkCount = st.logoutOkCount + cntLogout results i accs ∧
      (runLoop n results i accs st).outcomes.length = st.outcomes.length + accs.length ∧
      (runLoop n results i accs st).msgs.length = st.msgs.length + accs.length := by
  intro accs
  induction accs with
  | nil => intro i st; simp [runLoop, cntOk, cntFail, cntLogout]
  | cons a rest ih =>
    intro i st
    obtain ⟨h1, h2, h3, h4, h5, h6⟩ := ih (i + 1) (stepAccount n i a (results i) st)
    have ha : (stepAccount n i a (results i) st).attempted = st.attempted + 1 := rfl
    have ho : (stepAccount n i a (results i) st).outcomes.length =
        st.outcomes.length + 1 := by
      show (st.outcomes ++ [results i]).length = _
      simp
    have hm : (stepAccount n i a (results i) st).msgs.length = st.msgs.length + 1 := by
      show (st.msgs ++ [(accountUpdate (mask_email_keep_domain a.email) (results i)).2.2.2]).length = _
      simp
    refine ⟨?_, ?_, ?_, ?_, ?_, ?_⟩
    · show (runLoop n results (i + 1) rest (stepAccount n i a (results i) st)).attempted = _
      rw [h1, ha]
      simp [List.length_cons]
      omega
    · show (runLoop n results (i + 1) rest (stepAccount n i a (results i) st)).ok = _
      rw [h2, stepAccount_ok]
      simp [cntOk]
      omega
    · show (runLoop n results (i + 1) rest (stepAccount n i a (results i) st)).fail = _
      rw [h3, stepAccount_fail]
      simp [cntFail]
      omega
    · show (runLoop n results (i + 1) rest (stepAccount n i a (results i) st)).logoutOkCount = _
      rw [h4, stepAccount_logout]
      simp [cntLogout]
      omega
    · show (runLoop n results (i + 1) rest (stepAccount n i a (results i) st)).outcomes.length = _
      rw [h5, ho]
      simp [List.length_cons]
      omega
    · show (runLoop n results (i + 1) rest (stepAccount n i a (results i) st)).msgs.length = _
      rw [h6, hm]
      simp [List.length_cons]
      omega

lemma cnt_ok_add_fail (results : Nat → Except String Outcome) :
    ∀ (accs : List Account) (i : Nat),
      cntOk results i accs + cntFail results i accs = accs.length := by
  intro accs
  induction accs with
  | nil => intro i; rfl
  | cons a rest ih =>
    intro i
    have := ih (i + 1)
    unfold cntOk cntFail
    by_cases h : isOkOutcome (results i) = true <;> simp [h] <;> omega

lemma cnt_logout_le_ok (results : Nat → Except String Outcome) :
    ∀ (accs : List Account) (i : Nat),
      cntLogout results i accs ≤ cntOk results i accs := by
  intro accs
  induction accs with
  | nil => intro i; exact Nat.le_refl 0
  | cons a rest ih =>
    intro i
    have hle := ih (i + 1)
    unfold cntLogout cntOk
    have hhead : (if isLogoutCounted (results i) then 1 else 0) ≤
        (if isOkOutcome (results i) then 1 else 0) := by
      by_cases h : isLogoutCounted (results i) = true
      · have hok : isOkOutcome (results i) = true := by
          cases hr : results i with
          | ok o =>
            rw [hr] at h
            unfold isLogoutCounted at h
            unfold isOkOutcome
            simp at h ⊢
            exact h.1
          | error e =>
            rw [hr] at h
            unfold isLogoutCounted at h
            simp at h
        simp [h, hok]
      · simp [h]
    omega

/-- **C1.** For every successfully parsed batch of N accounts the orchestrator
produces exactly N per-account outcomes and messages, and afterwards
`succeeded + failed = attempted = N`, `logoutSucceeded ≤ succeeded`, with
`succeeded` counting exactly the OK results and `logoutSucceeded` counting
exactly the results that are OK with a verified logout. -/
theorem claim_C1 :
    ∀ (batchEnv : String) (results : Nat → Except String Outcome) (accounts : List Account),
      build_accounts_from_env batchEnv = Except.ok accounts →
      ∃ run : RunResult, mainModel batchEnv results = Except.ok run ∧
        run.state.outcomes.length = accounts.length ∧
        run.state.msgs.length = accounts.length ∧
        run.state.attempted = accounts.length ∧
        run.state.ok + run.state.fail = run.state.attempted ∧
        run.state.logoutOkCount ≤ run.state.ok ∧
        run.state.ok = cntOk results 1 accounts ∧
        run.state.logoutOkCount = cntLogout results 1 accounts := by
  intro batchEnv results accounts hok
  have hstate : (runBatch accounts results).state =
      runLoop accounts.length results 1 accounts initState := rfl
  obtain ⟨h1, h2, h3, h4, h5, h6⟩ :=
    runLoop_counters accounts.length results accounts 1 initState
  rw [show initState.attempted = 0 from rfl] at h1
  rw [show initState.ok = 0 from rfl] at h2
  rw [show initState.fail = 0 from rfl] at h3
  rw [show initState.logoutOkCount = 0 from rfl] at h4
  rw [show initState.outcomes.length = 0 from rfl] at h5
  rw [show initState.msgs.length = 0 from rfl] at h6
  simp only [Nat.zero_add] at h1 h2 h3 h4 h5 h6
  refine ⟨runBatch accounts results,
    by simp [mainModel, hok, Except.map], ?_, ?_, ?_, ?_, ?_, ?_, ?_⟩
  · rw [hstate, h5]
  · rw [hstate, h6]
  · rw [hstate, h1]
  · rw [hstate, h2, h3, h1]
    exact cnt_ok_add_fail results accounts 1
  · rw [hstate, h4, h2]
    exact cnt_logout_le_ok results accounts 1
  · rw [hstate, h2]
  · rw [hstate, h4]

/-- Witness for C1 on a concrete 2-line batch whose sessions both raise. -/
theorem claim_C1_witness :
    ∃ run : RunResult,
      mainModel "a@x.com,p1\nb@y.com,p2" (fun _ => Except.error "x") = Except.ok run ∧
      run.state.outcomes.length = 2 ∧
      run.state.msgs.length = 2 ∧
      run.state.attempted = 2 ∧
      run.state.ok + run.state.fail = run.state.attempted ∧
      run.state.logoutOkCount ≤ run.state.ok ∧
      run.state.ok = 0 ∧
      run.state.logoutOkCount = 0 :=
  claim_C1 "a@x.com,p1\nb@y.com,p2" (fun _ => Except.error "x")
    [⟨"a@x.com", "p1", "", ""⟩, ⟨"b@y.com", "p2", "", ""⟩] (by decide)

/-! ### C9: inter-account cooldown trace -/

/-- The event trace the loop emits from index `i` on: each account event is
followed by one unconditional 5-unit sleep, and a second 5-unit sleep only
when more accounts remain (`i < n`). -/
def traceAux (n : Nat) : Nat → List Account → List Event
  | _, [] => []
  | i, _ :: rest =>
    Event.account i :: Event.sleep 5 ::
      ((if i < n then [Event.sleep 5] else []) ++ traceAux n (i + 1) rest)

/-- Recognizes the sleep events of the trace. -/
def isSleep : Event → Bool
  | Event.sleep _ => true
  | Event.account _ => false

lemma stepAccount_trace (n i : Nat) (a : Account) (r : Except String Outcome)
    (st : BatchState) :
    (stepAccount n i a r st).trace =
      st.trace ++ [Event.account i, Event.sleep 5] ++
        (if i < n then [Event.sleep 5] else []) := rfl

lemma runLoop_trace (n : Nat) (results : Nat → Except String Outcome) :
    ∀ (accs : List Account) (i : Nat) (st : BatchState),
      (runLoop n results i accs st).trace = st.trace ++ traceAux n i accs := by
  intro accs
  induction accs with
  | nil => intro i st; simp [runLoop, traceAux]
  | cons a rest ih =>
    intro i st
    show (runLoop n results (i + 1) rest (stepAccount n i a (results i) st)).trace = _
    rw [ih, stepAccount_trace]
    simp [traceAux]

lemma traceAux_sleep_count (n : Nat) :
    ∀ (accs : List Account) (i : Nat), i + accs.length = n + 1 →
      (traceAux n i accs).countP (fun e => isSleep e) = 2 * accs.length - 1 := by
  intro accs
  induction accs with
  | nil => intro i h; simp [traceAux]
  | cons a rest ih =>
    intro i h
    have hrec := ih (i + 1) (by simp at h; omega)
    simp only [traceAux, List.countP_cons, List.countP_append]
    rw [hrec]
    by_cases hin : i < n
    · have hlen : rest.length ≥ 1 := by simp at h; omega
      simp [hin, isSleep]
      omega
    · have hlen : rest.length = 0 := by simp at h; omega
      simp [hin, isSleep, hlen]

/-- **C9.** After every account — whatever its result — the orchestrator
emits a first 5-unit pause unconditionally, including after the final
account, and a second 5-unit pause only while more accounts remain; hence a
nonempty batch of N accounts sleeps exactly 2N−1 times. -/
theorem claim_C9 :
    ∀ (accounts : List Account) (results : Nat → Except String Outcome),
      (runBatch accounts results).state.trace = traceAux accounts.length 1 accounts
      ∧ (∀ (n i : Nat) (a : Account) (rest : List Account),
          traceAux n i (a :: rest) =
            Event.account i :: Event.sleep 5 ::
              ((if i < n then [Event.sleep 5] else []) ++ traceAux n (i + 1) rest))
      ∧ (accounts ≠ [] →
          ((runBatch accounts results).state.trace).countP (fun e => isSleep e) =
            2 * accounts.length - 1) := by
  intro accounts results
  have htr : (runBatch accounts results).state.trace = traceAux accounts.length 1 accounts := by
    show (runLoop accounts.length results 1 accounts initState).trace = _
    rw [runLoop_trace]
    simp [initState]
  refine ⟨htr, fun n i a rest => rfl, ?_⟩
  intro _hne
  rw [htr, traceAux_sleep_count accounts.length accounts 1 (by omega)]

/-- Witness for C9 on a single-account batch: exactly one sleep is emitted. -/
theorem claim_C9_witness :
    ((runBatch [⟨"a@x.com", "p", "", ""⟩] (fun _ => Except.error "e")).state.trace).countP
      (fun e => isSleep e) = 1 :=
  (claim_C9 [⟨"a@x.com", "p", "", ""⟩] (fun _ => Except.error "e")).2.2 (by decide)

end Login
